import Mathlib

/-!
Verification of the NutriCare classification engine (`src/bot.py`,
`src/models.py`) against its natural-language specification.

Modelling conventions:
* Python floats that only flow through arithmetic and comparisons are
  modelled as `ℚ`.
* Nullable values (`None`) are modelled as `Option ℚ`.
* `age_months` is an `Integer` column in `models.py`, so it is modelled
  as `ℤ`.
* A Python expression that raises (e.g. `None < 115`, a `TypeError`)
  is modelled by returning `none` from the embedded function.
-/

/-- The three classification statuses the engine can produce
(`'SAM'`, `'MAM'`, `'NORMAL'` strings in `bot.py`). -/
inductive Status where
  | SAM
  | MAM
  | NORMAL
deriving DecidableEq, Repr

/-- Severity ordering of statuses: SAM > MAM > NORMAL. -/
def sev : Status → ℕ
  | Status.SAM => 2
  | Status.MAM => 1
  | Status.NORMAL => 0

/-- Function `get_status` from `src/bot.py` lines 59–75, translated clause by
clause.  In the `age_months ≥ 6` branch Python evaluates `muac < 115`;
when `muac` is `None` this raises a `TypeError`, modelled here by
returning `none`.  The `bmi_z` comparisons are guarded by
`bmi_z is not None` in the source, so an absent z-score never raises. -/
def get_status (muac : Option ℚ) (bmi_z : Option ℚ) (age_months : ℤ) : Option Status :=
  if age_months < 6 then
    some (match bmi_z with
      | some z =>
          if z ≤ -3 then Status.SAM
          else if -3 < z ∧ z < -2 then Status.MAM
          else Status.NORMAL
      | none => Status.NORMAL)
  else
    match muac with
    | none => none
    | some m =>
        let muac_status :=
          if m < 115 then Status.SAM
          else if m < 125 then Status.MAM
          else Status.NORMAL
        let bmi_status :=
          match bmi_z with
          | some z =>
              if z ≤ -3 then Status.SAM
              else if z < -2 then Status.MAM
              else Status.NORMAL
          | none => Status.NORMAL
        some (if muac_status = Status.SAM ∨ bmi_status = Status.SAM then Status.SAM
          else if muac_status = Status.MAM ∨ bmi_status = Status.MAM then Status.MAM
          else Status.NORMAL)

/-- The MUAC tier used by the spec (and inlined in `get_status` for
`age_months ≥ 6`): `muac < 115 → SAM; 115 ≤ muac < 125 → MAM; else NORMAL`. -/
def muacTier (m : ℚ) : Status :=
  if m < 115 then Status.SAM
  else if m < 125 then Status.MAM
  else Status.NORMAL

/-- The z-score tier used by the spec (and inlined in `get_status`):
absent → NORMAL; `z ≤ -3 → SAM`; `-3 < z < -2 → MAM`; otherwise NORMAL. -/
def zTier (bmi_z : Option ℚ) : Status :=
  match bmi_z with
  | some z =>
      if z ≤ -3 then Status.SAM
      else if z < -2 then Status.MAM
      else Status.NORMAL
  | none => Status.NORMAL

/-- Worst of two statuses under the ordering SAM > MAM > NORMAL, as the
spec words it: SAM if either is SAM; else MAM if either is MAM; else NORMAL. -/
def worstOf (a b : Status) : Status :=
  if a = Status.SAM ∨ b = Status.SAM then Status.SAM
  else if a = Status.MAM ∨ b = Status.MAM then Status.MAM
  else Status.NORMAL

/-- Sex as stored in `models.py` (`'male'` or `'female'`). -/
inductive Sex where
  | male
  | female
deriving DecidableEq, Repr

/-- A growth-reference z-score provider (`Calculator.bmifa` from
pygrowup): given a BMI value, an age in days and a sex it either
returns a z-score or fails (`none` models a raised exception). -/
def Provider : Type := ℚ → ℚ → Sex → Option ℚ

/-- The fields of the `Measurement` row persisted by
`calculate_and_save` (`src/models.py`). -/
structure MeasurementRow where
  weight : ℚ
  height : ℚ
  muac : Option ℚ
  bmi_z : Option ℚ
  status : Status
deriving DecidableEq, Repr

/-- The computational core of `calculate_and_save` (`src/bot.py`
lines 405–428): compute `bmi_value = weight / ((height / 100) ** 2)`
and `age_days = age_months * 30.42`, ask the provider for the
BMI-for-age z-score with `(bmi_value, age_days, sex)` — a raised
exception is caught and turns into `bmi_z = None` — then call
`get_status` and persist the `Measurement` row.  A `none` result
models `get_status` itself raising (which the surrounding handler
would turn into an error message, persisting nothing). -/
def calculate_and_save (provider : Provider) (sex : Sex) (age_months : ℤ)
    (weight height : ℚ) (muac : Option ℚ) : Option MeasurementRow :=
  let bmi_value := weight / ((height / 100) ^ 2)
  let age_days := (age_months : ℚ) * (3042 / 100)
  let bmi_z := provider bmi_value age_days sex
  (get_status muac bmi_z age_months).map (fun st =>
    { weight := weight, height := height, muac := muac, bmi_z := bmi_z, status := st })

/-- Validator `input_weight` from `src/bot.py` lines 344–352: `float(text)` may
fail (modelled by a `none` argument), and a parsed weight is rejected
when `weight <= 0 or weight > 50`; rejection re-prompts without
classifying.  Returns `true` iff the input is accepted. -/
def input_weight_accepts (text : Option ℚ) : Bool :=
  match text with
  | none => false
  | some weight => !(weight ≤ 0 ∨ weight > 50 : Bool)

/-- Validator `input_height` from `src/bot.py` lines 356–364: rejected when
`height <= 0 or height > 150`. -/
def input_height_accepts (text : Option ℚ) : Bool :=
  match text with
  | none => false
  | some height => !(height ≤ 0 ∨ height > 150 : Bool)

/-- Validator `input_muac` from `src/bot.py` lines 381–389: rejected when
`muac <= 0 or muac > 300`. -/
def input_muac_accepts (text : Option ℚ) : Bool :=
  match text with
  | none => false
  | some muac => !(muac ≤ 0 ∨ muac > 300 : Bool)

/-! ## Shared lemmas (used by several claim proofs) -/

/-- In the `age_months ≥ 6` branch, `get_status` with a present MUAC
computes exactly the worst of the two tiers. -/
theorem get_status_of_ge6 (m : ℚ) (z : Option ℚ) (a : ℤ) (h : ¬ a < 6) :
    get_status (some m) z a = some (worstOf (muacTier m) (zTier z)) := by
  unfold get_status
  rw [if_neg h]
  rfl

/-- In the `age_months < 6` branch, `get_status` computes exactly the
z-score tier, for any (even absent) MUAC.  The branch writes the MAM
condition as `-3 < z ∧ z < -2`, which coincides with `zTier` because
the preceding check already ruled out `z ≤ -3`. -/
theorem get_status_of_lt6 (muac : Option ℚ) (z : Option ℚ) (a : ℤ) (h : a < 6) :
    get_status muac z a = some (zTier z) := by
  unfold get_status
  rw [if_pos h]
  rcases z with _ | z
  · rfl
  · simp only [zTier]
    by_cases h3 : z ≤ -3
    · simp only [if_pos h3]
    · by_cases h2 : z < -2
      · simp only [if_neg h3, if_pos h2, if_pos (And.intro (not_le.mp h3) h2)]
      · simp only [if_neg h3, if_neg h2, if_neg (fun hc : -3 < z ∧ z < -2 => h2 hc.2)]

/-- Every status is one of the three enumerated values. -/
theorem status_cases (s : Status) :
    s = Status.SAM ∨ s = Status.MAM ∨ s = Status.NORMAL := by
  cases s
  · exact Or.inl rfl
  · exact Or.inr (Or.inl rfl)
  · exact Or.inr (Or.inr rfl)

/-- Severity of the worst of two statuses is the max of their severities. -/
theorem sev_worstOf (a b : Status) : sev (worstOf a b) = max (sev a) (sev b) := by
  cases a <;> cases b <;> rfl

/-- The MUAC tier is antitone in MUAC: a larger MUAC never has a higher
severity. -/
theorem sev_muacTier_anti (m1 m2 : ℚ) (h : m1 ≤ m2) :
    sev (muacTier m2) ≤ sev (muacTier m1) := by
  unfold muacTier
  split_ifs <;> first | decide | (exfalso; linarith)

/-! ## Claim theorems -/

/-- C1: for age_months ≥ 6 and a present MUAC (any z-score),
`get_status` returns exactly the worst of the MUAC tier and the z-score
tier under the ordering SAM > MAM > NORMAL. -/
theorem C1_ge6_worst_of_tiers (m : ℚ) (z : Option ℚ) (a : ℤ) (h : 6 ≤ a) :
    get_status (some m) z a = some (worstOf (muacTier m) (zTier z)) :=
  get_status_of_ge6 m z a (not_lt.mpr h)

/-- C1 witness at muac = 110, z = −1, age = 24. -/
theorem C1_witness :
    get_status (some 110) (some (-1)) 24 =
      some (worstOf (muacTier 110) (zTier (some (-1)))) :=
  C1_ge6_worst_of_tiers 110 (some (-1)) 24 (by decide)

/-- C2: for age_months < 6, `get_status` returns exactly the z-score
tier, and the result does not depend on the MUAC argument. -/
theorem C2_lt6_ztier_only (muac1 muac2 z : Option ℚ) (a : ℤ) (h : a < 6) :
    get_status muac1 z a = some (zTier z) ∧
      get_status muac1 z a = get_status muac2 z a := by
  refine ⟨get_status_of_lt6 muac1 z a h, ?_⟩
  rw [get_status_of_lt6 muac1 z a h, get_status_of_lt6 muac2 z a h]

/-- C2 witness: age 3, z = −5/2, MUAC 50 versus MUAC absent. -/
theorem C2_witness :
    get_status (some 50) (some (-5/2)) 3 = some (zTier (some (-5/2))) ∧
      get_status (some 50) (some (-5/2)) 3 = get_status none (some (-5/2)) 3 :=
  C2_lt6_ztier_only (some 50) none (some (-5/2)) 3 (by decide)

/-- C3: boundary behaviour.  MUAC exactly 115 gives tier MAM and 125
gives NORMAL (checked on the tier map and through `get_status` with an
absent z-score); z exactly −3 gives SAM, −2 gives NORMAL and an absent
z-score gives NORMAL, in both age branches. -/
theorem C3_boundaries :
    muacTier 115 = Status.MAM ∧
    muacTier 125 = Status.NORMAL ∧
    get_status (some 115) none 6 = some Status.MAM ∧
    get_status (some 125) none 6 = some Status.NORMAL ∧
    zTier (some (-3)) = Status.SAM ∧
    zTier (some (-2)) = Status.NORMAL ∧
    zTier none = Status.NORMAL ∧
    get_status none (some (-3)) 0 = some Status.SAM ∧
    get_status none (some (-2)) 0 = some Status.NORMAL ∧
    get_status none none 0 = some Status.NORMAL ∧
    get_status (some 130) (some (-3)) 6 = some Status.SAM ∧
    get_status (some 130) (some (-2)) 6 = some Status.NORMAL ∧
    get_status (some 130) none 6 = some Status.NORMAL :=
  ⟨rfl, rfl, rfl, rfl, rfl, rfl, rfl, rfl, rfl, rfl, rfl, rfl, rfl⟩

/-- C4: if the provider fails on the inputs that `calculate_and_save`
passes it, classification does not fail: `get_status` is still called
with an absent z-score, a status is produced and the persisted row has
a null `bmi_z`.  The precondition is the documented one: MUAC present
whenever age_months ≥ 6. -/
theorem C4_provider_failure_absorbed (p : Provider) (sex : Sex) (a : ℤ)
    (w ht : ℚ) (muac : Option ℚ)
    (hfail : p (w / ((ht / 100) ^ 2)) ((a : ℚ) * (3042 / 100)) sex = none)
    (hpre : a < 6 ∨ ∃ m, muac = some m) :
    ∃ st, get_status muac none a = some st ∧
      calculate_and_save p sex a w ht muac =
        some { weight := w, height := ht, muac := muac, bmi_z := none, status := st } := by
  simp only [calculate_and_save]
  rw [hfail]
  by_cases h6 : a < 6
  · exact ⟨zTier none, get_status_of_lt6 muac none a h6, by
      rw [get_status_of_lt6 muac none a h6]; rfl⟩
  · rcases hpre with h | ⟨m, rfl⟩
    · exact absurd h h6
    · exact ⟨worstOf (muacTier m) (zTier none), get_status_of_ge6 m none a h6, by
        rw [get_status_of_ge6 m none a h6]; rfl⟩

/-- C4 witness: an always-failing provider, age 30, MUAC 130. -/
theorem C4_witness :
    ∃ st, get_status (some 130) none 30 = some st ∧
      calculate_and_save (fun _ _ _ => none) Sex.male 30 10 90 (some 130) =
        some { weight := 10, height := 90, muac := some 130, bmi_z := none, status := st } :=
  C4_provider_failure_absorbed (fun _ _ _ => none) Sex.male 30 10 90 (some 130)
    rfl (Or.inr ⟨130, rfl⟩)

/-- C5: with age_months ≥ 6 and an absent MUAC, `get_status` does not
return a status (the Python comparison `muac < 115` raises a
`TypeError`, modelled by `none`): the function only returns a status
under the precondition that MUAC is present when age_months ≥ 6. -/
theorem C5_ge6_absent_muac_raises (z : Option ℚ) (a : ℤ) (h : 6 ≤ a) :
    get_status none z a = none := by
  unfold get_status
  rw [if_neg (not_lt.mpr h)]

/-- C5 witness at z absent, age 24. -/
theorem C5_witness : get_status none none 24 = none :=
  C5_ge6_absent_muac_raises none 24 (by decide)

/-- C6: the engine `calculate_and_save` computes BMI = weight / (height/100)² and
age_days = age_months × 30.42, and the z-score stored in the persisted
row is exactly the provider's answer on (BMI, age_days, sex). -/
theorem C6_provider_inputs (p : Provider) (sex : Sex) (a : ℤ) (w ht : ℚ)
    (muac : Option ℚ) (row : MeasurementRow)
    (hrow : calculate_and_save p sex a w ht muac = some row) :
    row.bmi_z = p (w / ((ht / 100) ^ 2)) ((a : ℚ) * (3042 / 100)) sex := by
  simp only [calculate_and_save] at hrow
  rcases hg : get_status muac (p (w / ((ht / 100) ^ 2)) ((a : ℚ) * (3042 / 100)) sex) a with _ | st
  · rw [hg] at hrow
    exact Option.noConfusion hrow
  · rw [hg] at hrow
    have h2 : _ = row := Option.some.inj hrow
    rw [← h2]

/-- C6 witness: a constant provider, age 24, MUAC 118. -/
theorem C6_witness :
    MeasurementRow.bmi_z
        { weight := 9, height := 80, muac := some 118, bmi_z := some 5, status := Status.MAM } =
      (fun _ _ _ => (some 5 : Option ℚ)) ((9 : ℚ) / ((80 / 100) ^ 2))
        (((24 : ℤ) : ℚ) * (3042 / 100)) Sex.male :=
  C6_provider_inputs (fun _ _ _ => some 5) Sex.male 24 9 80 (some 118)
    { weight := 9, height := 80, muac := some 118, bmi_z := some 5, status := Status.MAM } rfl

/-- C7: under the documented preconditions (age in [0,60], MUAC present
and in (0,300] when age ≥ 6), `get_status` returns a status, and that
status is one of the three enumerated values. -/
theorem C7_total_three_values (muac z : Option ℚ) (a : ℤ)
    (_hage : 0 ≤ a ∧ a ≤ 60)
    (hmuac : 6 ≤ a → ∃ m, muac = some m ∧ 0 < m ∧ m ≤ 300) :
    ∃ s, get_status muac z a = some s ∧
      (s = Status.SAM ∨ s = Status.MAM ∨ s = Status.NORMAL) := by
  by_cases h6 : a < 6
  · exact ⟨zTier z, get_status_of_lt6 muac z a h6, status_cases _⟩
  · rcases hmuac (not_lt.mp h6) with ⟨m, rfl, -, -⟩
    exact ⟨worstOf (muacTier m) (zTier z), get_status_of_ge6 m z a h6, status_cases _⟩

/-- C7 witness at MUAC 120, z absent, age 24. -/
theorem C7_witness :
    ∃ s, get_status (some 120) none 24 = some s ∧
      (s = Status.SAM ∨ s = Status.MAM ∨ s = Status.NORMAL) :=
  C7_total_three_values (some 120) none 24 (by decide)
    (fun _ => ⟨120, rfl, by decide, by decide⟩)

/-- C8: the caller-side validators accept exactly the documented
ranges — weight iff 0 < w ≤ 50, height iff 0 < h ≤ 150, MUAC iff
0 < m ≤ 300 — and reject non-numeric input (`none`). -/
theorem C8_validator_ranges :
    (∀ t : Option ℚ, input_weight_accepts t = true ↔ ∃ w, t = some w ∧ 0 < w ∧ w ≤ 50) ∧
    (∀ t : Option ℚ, input_height_accepts t = true ↔ ∃ h, t = some h ∧ 0 < h ∧ h ≤ 150) ∧
    (∀ t : Option ℚ, input_muac_accepts t = true ↔ ∃ m, t = some m ∧ 0 < m ∧ m ≤ 300) := by
  refine ⟨fun t => ?_, fun t => ?_, fun t => ?_⟩ <;>
    rcases t with _ | v <;>
      simp [input_weight_accepts, input_height_accepts, input_muac_accepts,
        not_or, not_lt, not_le]

/-- C8 witness: concrete accept and reject cases for each validator. -/
theorem C8_witness :
    input_weight_accepts (some 10) = true ∧ input_weight_accepts (some 51) = false ∧
    input_height_accepts (some 70) = true ∧ input_height_accepts (some 151) = false ∧
    input_muac_accepts (some 120) = true ∧ input_muac_accepts (some 301) = false ∧
    input_weight_accepts none = false :=
  ⟨rfl, rfl, rfl, rfl, rfl, rfl, rfl⟩

/-- C9: the function `get_status` is deterministic and stateless: two calls with
identical arguments return identical results. -/
theorem C9_deterministic (m1 m2 z1 z2 : Option ℚ) (a1 a2 : ℤ)
    (hm : m1 = m2) (hz : z1 = z2) (ha : a1 = a2) :
    get_status m1 z1 a1 = get_status m2 z2 a2 := by
  rw [hm, hz, ha]

/-- C9 witness at MUAC 120, z = −1, age 24. -/
theorem C9_witness :
    get_status (some 120) (some (-1)) 24 = get_status (some 120) (some (-1)) 24 :=
  C9_deterministic (some 120) (some 120) (some (-1)) (some (-1)) 24 24 rfl rfl rfl

/-- C10: for age_months ≥ 6 and a fixed z-score, `get_status` is
antitone in MUAC: a larger MUAC never yields a strictly more severe
status under SAM > MAM > NORMAL. -/
theorem C10_muac_monotone (a : ℤ) (z : Option ℚ) (m1 m2 : ℚ)
    (hage : 6 ≤ a) (hm : m1 ≤ m2) (s1 s2 : Status)
    (h1 : get_status (some m1) z a = some s1)
    (h2 : get_status (some m2) z a = some s2) :
    sev s2 ≤ sev s1 := by
  rw [get_status_of_ge6 m1 z a (not_lt.mpr hage), Option.some_inj] at h1
  rw [get_status_of_ge6 m2 z a (not_lt.mpr hage), Option.some_inj] at h2
  rw [← h1, ← h2, sev_worstOf, sev_worstOf]
  exact max_le_max (sev_muacTier_anti m1 m2 hm) le_rfl

/-- C10 witness: MUAC 110 (SAM) versus 120 (MAM) at age 24, z absent. -/
theorem C10_witness : sev Status.MAM ≤ sev Status.SAM :=
  C10_muac_monotone 24 none 110 120 (by decide) (by decide)
    Status.SAM Status.MAM rfl rfl
